import Mathlib

/-!
Shallow embedding of the robo_eye repository for specification checking.

Sources embedded here:
* `src/micropython_controller/code.py` — the CircuitPython eye controller
  (servo configuration, degree clamping, pulse/duty conversion, eye moves,
  the serial command protocol and the button-menu state machine).
* `src/saccade.py` — the host-side Phidget saccade CLI (zero-offset
  angle mapping and the post-hoc motion-profile analysis).

Modelling conventions:
* Python floats are modelled as exact rationals (`ℚ`); every arithmetic
  operation used by the embedded code (`+`, `-`, `*`, `/`, `min`, `max`,
  `abs`, comparisons, `int()` truncation) is exact on the inputs the
  claims exercise, so no claim here hinges on IEEE rounding.
* Python `int(x)` truncates toward zero; it is modelled by `pyTrunc`.
* External servo hardware is modelled by an oracle `ok : ℕ → Bool`
  telling, per PCA9685 channel, whether the duty-cycle write succeeds
  (in the source, `set_servo_pulse` returns `False` exactly when the
  controller is unavailable).  Issued duty-cycle writes are collected in
  an explicit trace `List (ℕ × ℤ)` of `(channel, duty)` pairs.
* Python strings are modelled as `List Char`; `str.strip`, `str.upper`
  and `str.split()` are modelled by `pyStrip`, `pyUpper`, `pySplit`.
* The builtin `float(token)` is modelled by `parseFloat` on the grammar
  of finite signed decimal literals with optional exponent (the forms
  `inf`/`nan`/underscore separators, which no claim exercises, are not
  representable in `ℚ` and are treated as parse failures).
* Display rendering (`label.Label`, `render_options`, colors, layout) is
  out of scope per the spec and is not modelled; the state-machine
  functions below carry exactly the mutations the source performs on the
  program state.
-/

namespace RoboEye

/-- Python `int(x)` for a real argument: truncation toward zero
(`-⌊-q⌋` is the ceiling, used on the negative side). -/
def pyTrunc (q : ℚ) : ℤ := if 0 ≤ q then ⌊q⌋ else -⌊-q⌋

/-- The whitespace characters stripped by Python `str.strip()` /
split on by `str.split()` (ASCII subset; the claims use only these). -/
def isSpaceChar (c : Char) : Bool :=
  c = ' ' || c = '\t' || c = '\n' || c = '\r' || c = '\x0b' || c = '\x0c'

/-- Python `str.upper()` (ASCII). -/
def pyUpper (l : List Char) : List Char := l.map Char.toUpper

/-- Python `str.strip()`: drop leading and trailing whitespace. -/
def pyStrip (l : List Char) : List Char :=
  ((l.dropWhile isSpaceChar).reverse.dropWhile isSpaceChar).reverse

/-- Helper for `pySplit`: accumulates the current (reversed) token. -/
def splitAux : List Char → List Char → List (List Char)
  | [], acc => if acc.isEmpty then [] else [acc.reverse]
  | c :: rest, acc =>
    if isSpaceChar c then
      if acc.isEmpty then splitAux rest [] else acc.reverse :: splitAux rest []
    else splitAux rest (c :: acc)

/-- Python `str.split()` with no argument: split on runs of whitespace,
discarding empty tokens. -/
def pySplit (l : List Char) : List (List Char) := splitAux l []

/-- Numeric value of a list of decimal digits (most significant first). -/
def natOfDigits (ds : List ℕ) : ℕ := ds.foldl (fun acc d => 10 * acc + d) 0

/-- Split off the leading decimal digits of a character list. -/
def readDigits : List Char → List ℕ × List Char
  | [] => ([], [])
  | c :: rest =>
    if c.isDigit then
      let (ds, r) := readDigits rest
      (((c.toNat - 48) :: ds), r)
    else ([], c :: rest)

/-- Parse the optional exponent part (`e`/`E`, optional sign, digits) at
the end of a float literal; `none` on malformed input. -/
def parseExponent : List Char → Option ℤ
  | [] => some 0
  | c :: rest =>
    if c = 'e' ∨ c = 'E' then
      let (neg, rest') :=
        match rest with
        | '+' :: r => (false, r)
        | '-' :: r => (true, r)
        | r => (false, r)
      let (ds, r) := readDigits rest'
      if ds.isEmpty ∨ ¬r.isEmpty then none
      else some (if neg then -(natOfDigits ds : ℤ) else (natOfDigits ds : ℤ))
    else none

/-- Apply a decimal exponent to a rational. -/
def applyExp (q : ℚ) (e : ℤ) : ℚ :=
  if 0 ≤ e then q * (10 : ℚ) ^ e.toNat else q / (10 : ℚ) ^ (-e).toNat

/-- Model of Python `float(token)` on finite decimal literals: optional
surrounding whitespace, optional sign, digits with optional fractional
part, optional exponent.  Returns `none` where `float()` raises
`ValueError` (and also on `inf`/`nan`, which `ℚ` cannot carry and no
claim exercises). -/
def parseFloat (token : List Char) : Option ℚ :=
  let s := pyStrip token
  let (sign, s) : ℚ × List Char :=
    match s with
    | '+' :: r => (1, r)
    | '-' :: r => (-1, r)
    | r => (1, r)
  let (intDs, s) := readDigits s
  match s with
  | '.' :: r =>
    let (fracDs, s') := readDigits r
    if intDs.isEmpty ∧ fracDs.isEmpty then none
    else
      match parseExponent s' with
      | none => none
      | some e =>
        some (applyExp (sign * ((natOfDigits intDs : ℚ) +
          (natOfDigits fracDs : ℚ) / (10 : ℚ) ^ fracDs.length)) e)
  | s' =>
    if intDs.isEmpty then none
    else
      match parseExponent s' with
      | none => none
      | some e => some (applyExp (sign * (natOfDigits intDs : ℚ)) e)

/-! ## Servo configuration (`SERVO_CONFIG`, `SERVO_LOOKUP`) -/

/-- The two eyes of the rig. -/
inductive Eye | L | R
deriving DecidableEq, BEq

/-- The two axes of one eye. -/
inductive Axis | pan | tilt
deriving DecidableEq, BEq

/-- One entry of `SERVO_CONFIG`. -/
structure Servo where
  eye : Eye
  axis : Axis
  channel : ℕ
  zero_pulse_us : ℚ
  direction : ℤ
deriving DecidableEq

/-- `SERVO_RANGE_DEGREES = 45`. -/
def SERVO_RANGE_DEGREES : ℚ := 45

/-- `SERVO_US_PER_DEGREE = 11`. -/
def SERVO_US_PER_DEGREE : ℚ := 11

/-- `SERVO_FREQUENCY = 50` (also what `connect_servo_controller` sets as
the PCA9685 frequency, so `controller.frequency = 50` whenever a write
happens). -/
def SERVO_FREQUENCY : ℚ := 50

/-- `SERVO_CONFIG` from `src/micropython_controller/code.py`. -/
def SERVO_CONFIG : List Servo :=
  [⟨.L, .pan, 4, 1490, -1⟩,
   ⟨.L, .tilt, 5, 1460, 1⟩,
   ⟨.R, .pan, 6, 1560, -1⟩,
   ⟨.R, .tilt, 7, 1460, -1⟩]

/-- `SERVO_LOOKUP[(eye, axis)]`, built from `SERVO_CONFIG` (dict `.get`:
`none` when the pair is absent). -/
def SERVO_LOOKUP (eye : Eye) (axis : Axis) : Option Servo :=
  SERVO_CONFIG.find? (fun s => s.eye == eye && s.axis == axis)

/-! ## Pulse and duty conversion -/

/-- `pulse_us_to_duty_cycle(pulse_us, frequency)`: the source computes
`int((pulse_seconds / period_seconds) * 0xFFFF)` and then clamps the
integer into `[0, 0xFFFF]`. -/
def pulse_us_to_duty_cycle (pulse_us : ℚ) (frequency : ℚ) : ℤ :=
  let period_seconds : ℚ := 1 / frequency
  let pulse_seconds : ℚ := pulse_us / 1000000
  let duty_cycle : ℤ := pyTrunc ((pulse_seconds / period_seconds) * 65535)
  max 0 (min 65535 duty_cycle)

/-- The spec's §4.1 duty formula taken literally:
`round(clamp((pulse_us / (1e6 / frequency_hz)) * max_duty, 0, max_duty))`
with `max_duty = 0xFFFF`.  Declared for comparison with the source's
`pulse_us_to_duty_cycle` above. -/
def spec_duty_formula (pulse_us : ℚ) (frequency : ℚ) : ℤ :=
  round (max 0 (min 65535 ((pulse_us / (1000000 / frequency)) * 65535)))

/-- The spec formula amended only where the code forces it: truncation
toward zero (`int()`) in place of rounding, clamping the resulting
integer. -/
def spec_duty_formula_trunc (pulse_us : ℚ) (frequency : ℚ) : ℤ :=
  max 0 (min 65535 (pyTrunc ((pulse_us / (1000000 / frequency)) * 65535)))

/-- `set_servo_pulse(channel, pulse_us)`: returns `False` when the
controller is unavailable (oracle `ok channel = false`), otherwise
writes the converted duty cycle to the channel and returns `True`.
The write trace records `(channel, duty)`. -/
def set_servo_pulse (ok : ℕ → Bool) (channel : ℕ) (pulse_us : ℚ) :
    Bool × List (ℕ × ℤ) :=
  if ok channel then
    (true, [(channel, pulse_us_to_duty_cycle pulse_us SERVO_FREQUENCY)])
  else (false, [])

/-! ## Degree clamping and axis moves -/

/-- `clamp_degrees(value) = max(-SERVO_RANGE_DEGREES, min(SERVO_RANGE_DEGREES, value))`. -/
def clamp_degrees (value : ℚ) : ℚ :=
  max (-SERVO_RANGE_DEGREES) (min SERVO_RANGE_DEGREES value)

/-- `set_axis_angle(eye, axis, degrees)`: looks up the servo, clamps the
requested degrees, computes the pulse from the clamped value, issues the
servo write, and returns `(success, clamped)` together with the write
trace.  With no configured servo it returns `(False, 0.0)`. -/
def set_axis_angle (ok : ℕ → Bool) (eye : Eye) (axis : Axis) (degrees : ℚ) :
    Bool × ℚ × List (ℕ × ℤ) :=
  match SERVO_LOOKUP eye axis with
  | none => (false, 0, [])
  | some servo =>
    let clamped := clamp_degrees degrees
    let pulse := servo.zero_pulse_us +
      (servo.direction : ℚ) * clamped * SERVO_US_PER_DEGREE
    let r := set_servo_pulse ok servo.channel pulse
    (r.1, clamped, r.2)

/-- The per-eye angle store `eye_angles` (initialized to `0.0` per axis). -/
structure EyeAngles where
  lpan : ℚ
  ltilt : ℚ
  rpan : ℚ
  rtilt : ℚ
deriving DecidableEq

/-- Read `eye_angles[eye][axis]`. -/
def EyeAngles.get (st : EyeAngles) : Eye → Axis → ℚ
  | .L, .pan => st.lpan
  | .L, .tilt => st.ltilt
  | .R, .pan => st.rpan
  | .R, .tilt => st.rtilt

/-- Write `eye_angles[eye][axis] = v`. -/
def EyeAngles.set (st : EyeAngles) (e : Eye) (a : Axis) (v : ℚ) : EyeAngles :=
  match e, a with
  | .L, .pan => { st with lpan := v }
  | .L, .tilt => { st with ltilt := v }
  | .R, .pan => { st with rpan := v }
  | .R, .tilt => { st with rtilt := v }

/-- `move_eye_to_angles(eye, pan_deg, tilt_deg)`: attempts both axes
independently, stores the applied (clamped) angle for each axis that
succeeded, and returns `pan_ok and tilt_ok` with the updated store and
the write trace. -/
def move_eye_to_angles (ok : ℕ → Bool) (st : EyeAngles) (eye : Eye)
    (pan_deg tilt_deg : ℚ) : Bool × EyeAngles × List (ℕ × ℤ) :=
  let pr := set_axis_angle ok eye .pan pan_deg
  let tr := set_axis_angle ok eye .tilt tilt_deg
  let st1 := if pr.1 then st.set eye .pan pr.2.1 else st
  let st2 := if tr.1 then st1.set eye .tilt tr.2.1 else st1
  (pr.1 && tr.1, st2, pr.2.2 ++ tr.2.2)

/-- `perform_saccade(left_pan, left_tilt, right_pan, right_tilt)`: each
`none` argument is the hold sentinel and is resolved from the current
`eye_angles` before any move; then the left eye and the right eye are
moved in turn.  Returns `(both_ok, applied_tuple, new_store, writes)`
mirroring the source's `(success, applied)` return plus the state and
trace. -/
def perform_saccade (ok : ℕ → Bool) (st : EyeAngles)
    (left_pan left_tilt right_pan right_tilt : Option ℚ) :
    Bool × (ℚ × ℚ × ℚ × ℚ) × EyeAngles × List (ℕ × ℤ) :=
  let left_pan_value := left_pan.getD (st.get .L .pan)
  let left_tilt_value := left_tilt.getD (st.get .L .tilt)
  let right_pan_value := right_pan.getD (st.get .R .pan)
  let right_tilt_value := right_tilt.getD (st.get .R .tilt)
  let lr := move_eye_to_angles ok st .L left_pan_value left_tilt_value
  let rr := move_eye_to_angles ok lr.2.1 .R right_pan_value right_tilt_value
  (lr.1 && rr.1,
   (left_pan_value, left_tilt_value, right_pan_value, right_tilt_value),
   rr.2.1, lr.2.2 ++ rr.2.2)

/-! ## Saccade argument parsing and the serial command protocol -/

/-- Result of `parse_saccade_arg`: the hold sentinel (`None` in Python),
a parsed float, or the `ValueError` raised by `float(token)`. -/
inductive SacArg
  | hold
  | num (q : ℚ)
  | err
deriving DecidableEq

/-- Whether a `parse_saccade_arg` outcome is the `ValueError` case. -/
def SacArg.isErr : SacArg → Bool
  | .err => true
  | _ => false

/-- The Python `None`-or-float view of a parsed argument. -/
def SacArg.toOpt : SacArg → Option ℚ
  | .hold => none
  | .num q => some q
  | .err => none

/-- The hold-sentinel spellings accepted by `parse_saccade_arg`. -/
def HOLD_TOKENS : List (List Char) :=
  ["X".toList, "H".toList, "HOLD".toList, "SKIP".toList, "KEEP".toList,
   "NC".toList]

/-- `parse_saccade_arg(token)`: `token.strip().upper()` against the hold
sentinels, else `float(token)` (raising `ValueError` on failure). -/
def parse_saccade_arg (token : List Char) : SacArg :=
  let normalized := pyUpper (pyStrip token)
  if HOLD_TOKENS.contains normalized then .hold
  else
    match parseFloat token with
    | some q => .num q
    | none => .err

/-- `NINE_POINT_VECTORS` from the source: key to `(pan, tilt)` unit
vector. -/
def NINE_POINT_VECTORS : List (List Char × ℤ × ℤ) :=
  [("UL".toList, -1, 1), ("UC".toList, 0, 1), ("UR".toList, 1, 1),
   ("L".toList, -1, 0), ("C".toList, 0, 0), ("R".toList, 1, 0),
   ("LL".toList, -1, -1), ("LC".toList, 0, -1), ("LR".toList, 1, -1)]

/-- Dict lookup in `NINE_POINT_VECTORS`. -/
def nine_point_vector (key : List Char) : Option (ℤ × ℤ) :=
  (NINE_POINT_VECTORS.find? (fun p => p.1 == key)).map (·.2)

/-- `POINT_DISTANCE_OPTIONS = (1, 5, 10, 20, 40)`. -/
def POINT_DISTANCE_OPTIONS : List ℚ := [1, 5, 10, 20, 40]

/-- `EYE_OPTIONS = ("L", "R", "B")`. -/
def EYE_OPTIONS : List (List Char) := ["L".toList, "R".toList, "B".toList]

/-! ## Menu configuration -/

/-- One entry of `MENU`.  The Python dict's `default_option` value is an
int or a string when present; `row_length` and `message` only drive
display rendering and are not modelled. -/
structure MenuSection where
  name : List Char
  options : List (List Char)
  default_option : Option (ℕ ⊕ List Char)

/-- `MENU` from the source: the 9-pt, Zero and Settings sections. -/
def MENU : List MenuSection :=
  [⟨"9-pt".toList,
    ["UL".toList, "UC".toList, "UR".toList, "L".toList, "C".toList,
     "R".toList, "LL".toList, "LC".toList, "LR".toList],
    some (.inr ("C".toList))⟩,
   ⟨"Zero".toList, [], none⟩,
   ⟨"Settings".toList, ["Eye".toList, "Range".toList], some (.inl 0)⟩]

/-- `MENU_9PT_INDEX = 0`. -/
def MENU_9PT_INDEX : ℕ := 0

/-- `default_option_index(section)`: `None` for a section without
options; otherwise the default option resolved from an int (mod the
option count), a string (its index when present), or `0`. -/
def default_option_index (sec : MenuSection) : Option ℕ :=
  if sec.options.isEmpty then none
  else
    match sec.default_option with
    | none => some 0
    | some (.inl n) => some (n % sec.options.length)
    | some (.inr v) =>
      if sec.options.contains v then
        some (sec.options.findIdx (· == v))
      else some 0

/-! ## Whole-program mutable state -/

/-- The module-level mutable state of `code.py` that the embedded
operations read or write: `eye_angles`, `current_menu_index`,
`current_option_indices`, `selected_option_indices`,
`eye_selection_index` and `point_distance_index`. -/
structure SysState where
  angles : EyeAngles
  current_menu_index : ℕ
  current_option_indices : List (Option ℕ)
  selected_option_indices : List (Option ℕ)
  eye_selection_index : ℕ
  point_distance_index : ℕ
deriving DecidableEq

/-- The state right after module load: angles zeroed, menu at section 0,
option cursors at their defaults, eye target `B` (index 2), distance
`10` (index 2). -/
def initState : SysState :=
  ⟨⟨0, 0, 0, 0⟩, 0, MENU.map default_option_index,
   MENU.map default_option_index, 2, 2⟩

/-- `get_eye_selection()`. -/
def get_eye_selection (st : SysState) : List Char :=
  EYE_OPTIONS.getD st.eye_selection_index []

/-- `get_point_distance()`. -/
def get_point_distance (st : SysState) : ℚ :=
  POINT_DISTANCE_OPTIONS.getD st.point_distance_index 0

/-- `get_target_eyes()`: `("L",)`, `("R",)` or both. -/
def get_target_eyes (st : SysState) : List Eye :=
  if get_eye_selection st = "L".toList then [.L]
  else if get_eye_selection st = "R".toList then [.R]
  else [.L, .R]

/-- `cycle_eye_selection()`. -/
def cycle_eye_selection (st : SysState) : SysState :=
  { st with eye_selection_index :=
      (st.eye_selection_index + 1) % EYE_OPTIONS.length }

/-- `cycle_point_distance()`. -/
def cycle_point_distance (st : SysState) : SysState :=
  { st with point_distance_index :=
      (st.point_distance_index + 1) % POINT_DISTANCE_OPTIONS.length }

/-- `apply_point_selection(point_key)`: resolves the nine-point vector,
scales by the configured distance and moves every targeted eye,
returning whether at least one eye moved, with the new state and write
trace. -/
def apply_point_selection (ok : ℕ → Bool) (st : SysState)
    (point_key : List Char) : Bool × SysState × List (ℕ × ℤ) :=
  match nine_point_vector point_key with
  | none => (false, st, [])
  | some v =>
    let distance := get_point_distance st
    let pan_deg := (v.1 : ℚ) * distance
    let tilt_deg := (v.2 : ℚ) * distance
    let r := (get_target_eyes st).foldl
      (fun (acc : Bool × EyeAngles × List (ℕ × ℤ)) eye =>
        let m := move_eye_to_angles ok acc.2.1 eye pan_deg tilt_deg
        (acc.1 || m.1, m.2.1, acc.2.2 ++ m.2.2))
      (false, st.angles, [])
    (r.1, { st with angles := r.2.1 }, r.2.2)

/-- `zero_servos()`: moves both eyes to `(0, 0)`; on full success the
9-pt section's selected option is reset to `"C"`. -/
def zero_servos (ok : ℕ → Bool) (st : SysState) :
    Bool × SysState × List (ℕ × ℤ) :=
  let l := move_eye_to_angles ok st.angles .L 0 0
  let r := move_eye_to_angles ok l.2.1 .R 0 0
  let success := l.1 && r.1
  let st' := { st with angles := r.2.1 }
  let nine_pt_options := (MENU.getD MENU_9PT_INDEX ⟨[], [], none⟩).options
  let st'' :=
    if success && nine_pt_options.contains ("C".toList) then
      { st' with selected_option_indices :=
          (st'.selected_option_indices.set MENU_9PT_INDEX
            (some (nine_pt_options.findIdx (· == "C".toList)))) }
    else st'
  (success, st'', l.2.2 ++ r.2.2)

/-- The response lines the serial handler prints.  Each constructor is
one `print` in the source:
`ok9pt k` ↦ `"CMD OK 9PT {k}"`, `err9pt k` ↦ `"CMD ERR 9PT {k}"`,
`okSac lp lt rp rt` ↦ `"CMD OK SAC {lp:.1f} {lt:.1f} {rp:.1f} {rt:.1f}"`,
`errSacArity` ↦ `"CMD ERR SAC needs 4 angles"`,
`errSacInvalid` ↦ `"CMD ERR SAC invalid angle"`,
`errSacMoveFailed` ↦ `"CMD ERR SAC move failed"`,
`errUnknown c` ↦ `"CMD ERR Unknown command: {c}"`,
`errLineTooLong` ↦ `"CMD ERR Line too long"`. -/
inductive Out
  | ok9pt (key : List Char)
  | err9pt (key : List Char)
  | okSac (lp lt rp rt : ℚ)
  | errSacArity
  | errSacInvalid
  | errSacMoveFailed
  | errUnknown (command : List Char)
  | errLineTooLong
deriving DecidableEq

/-- `handle_serial_command(command)`: strip, split, dispatch to the
nine-point shortcut, the `SAC`/`SACCADE` forms, or the unknown-command
diagnostic.  Returns the new state, the printed response lines and the
servo write trace. -/
def handle_serial_command (ok : ℕ → Bool) (st : SysState)
    (command : List Char) : SysState × List Out × List (ℕ × ℤ) :=
  let command := pyStrip command
  if command.isEmpty then (st, [], [])
  else
    let parts := pySplit command
    let command_key := pyUpper (parts.headD [])
    let args := parts.tail
    if parts.length = 1 ∧ (nine_point_vector command_key).isSome then
      let r := apply_point_selection ok st command_key
      (r.2.1, [if r.1 then .ok9pt command_key else .err9pt command_key],
       r.2.2)
    else if command_key = "SAC".toList ∨ command_key = "SACCADE".toList then
      if args.length ≠ 4 then (st, [.errSacArity], [])
      else
        let parsed := args.map parse_saccade_arg
        if parsed.any SacArg.isErr then (st, [.errSacInvalid], [])
        else
          match parsed with
          | [a1, a2, a3, a4] =>
            let r := perform_saccade ok st.angles a1.toOpt a2.toOpt
              a3.toOpt a4.toOpt
            ({ st with angles := r.2.2.1 },
             [if r.1 then
                .okSac r.2.1.1 r.2.1.2.1 r.2.1.2.2.1 r.2.1.2.2.2
              else .errSacMoveFailed],
             r.2.2.2)
          | _ => (st, [.errSacInvalid], [])
    else (st, [.errUnknown command], [])

/-! ## Serial line accumulation (`poll_serial_commands`) -/

/-- The observable result of feeding characters to the serial poller:
final program state, the pending line buffer, every printed response,
every servo write, and every command string handed to
`handle_serial_command`. -/
structure SerialRun where
  state : SysState
  buffer : List Char
  outs : List Out
  writes : List (ℕ × ℤ)
  dispatched : List (List Char)
deriving DecidableEq

/-- One character of the `poll_serial_commands` loop body: a terminator
flushes the stripped buffer to the dispatcher (when non-empty); any
other character is appended, and a buffer longer than 64 characters is
discarded with the line-too-long diagnostic. -/
def serial_step (ok : ℕ → Bool) (r : SerialRun) (c : Char) : SerialRun :=
  if c = '\n' ∨ c = '\r' then
    let command := pyStrip r.buffer
    if command.isEmpty then { r with buffer := [] }
    else
      let h := handle_serial_command ok r.state command
      { state := h.1, buffer := [], outs := r.outs ++ h.2.1,
        writes := r.writes ++ h.2.2, dispatched := r.dispatched ++ [command] }
  else
    let buffer := r.buffer ++ [c]
    if 64 < buffer.length then
      { r with buffer := [], outs := r.outs ++ [.errLineTooLong] }
    else { r with buffer := buffer }

/-- Feed a whole character sequence through `serial_step`. -/
def serial_run (ok : ℕ → Bool) (r : SerialRun) : List Char → SerialRun
  | [] => r
  | c :: cs => serial_run ok (serial_step ok r c) cs

/-- A fresh serial session over a given program state. -/
def serial_start (st : SysState) : SerialRun := ⟨st, [], [], [], []⟩

/-! ## Menu state machine -/

/-- `cycle_menu()`: advance the active section circularly; give a newly
active section with options a cursor if it has none. -/
def cycle_menu (st : SysState) : SysState :=
  let i := (st.current_menu_index + 1) % MENU.length
  let st := { st with current_menu_index := i }
  let sec := MENU.getD i ⟨[], [], none⟩
  if ¬sec.options.isEmpty ∧ st.current_option_indices.getD i none = none
  then
    { st with current_option_indices :=
        st.current_option_indices.set i (some 0) }
  else st

/-- `cycle_option()`: advance the active section's option cursor
circularly (no-op for a section without options); `x or 0` maps a
missing cursor to `0`. -/
def cycle_option (st : SysState) : SysState :=
  let sec := MENU.getD st.current_menu_index ⟨[], [], none⟩
  if sec.options.isEmpty then st
  else
    let current_option :=
      (st.current_option_indices.getD st.current_menu_index none).getD 0
    let current_option := (current_option + 1) % sec.options.length
    { st with current_option_indices :=
        (st.current_option_indices.set st.current_menu_index
          (some current_option)) }

/-- `handle_selection()`: the Zero section zeroes the servos and marks
its (only) selection; the Settings section commits the cursor and
toggles the chosen sub-setting; other sections commit the cursor and,
for the 9-pt section, issue the nine-point move.  Servo writes are side
effects on the angle store; the printed status lines are not modelled. -/
def handle_selection (ok : ℕ → Bool) (st : SysState) : SysState :=
  let sec := MENU.getD st.current_menu_index ⟨[], [], none⟩
  if sec.name = "Zero".toList then
    let z := zero_servos ok st
    { z.2.1 with selected_option_indices :=
        z.2.1.selected_option_indices.set z.2.1.current_menu_index (some 0) }
  else if sec.name = "Settings".toList then
    match st.current_option_indices.getD st.current_menu_index none with
    | none => st
    | some option_index =>
      if sec.options.length ≤ option_index then st
      else
        let selection := sec.options.getD option_index []
        let st := { st with selected_option_indices :=
            (st.selected_option_indices.set st.current_menu_index
              (some option_index)) }
        if selection = "Eye".toList then cycle_eye_selection st
        else if selection = "Range".toList then cycle_point_distance st
        else st
  else
    match st.current_option_indices.getD st.current_menu_index none with
    | some option_index =>
      if ¬sec.options.isEmpty then
        let selection := sec.options.getD option_index []
        let st := { st with selected_option_indices :=
            (st.selected_option_indices.set st.current_menu_index
              (some option_index)) }
        if sec.name = "9-pt".toList then
          (apply_point_selection ok st selection).2.1
        else st
      else
        { st with selected_option_indices :=
            st.selected_option_indices.set st.current_menu_index (some 0) }
    | none =>
      { st with selected_option_indices :=
          st.selected_option_indices.set st.current_menu_index (some 0) }

/-- A button-driven operation of the menu state machine; `select`
carries the servo oracle in effect when it runs. -/
inductive MenuOp
  | cycleMenu
  | cycleOption
  | select (ok : ℕ → Bool)

/-- Apply one menu operation. -/
def apply_menu_op (st : SysState) : MenuOp → SysState
  | .cycleMenu => cycle_menu st
  | .cycleOption => cycle_option st
  | .select ok => handle_selection ok st

/-- Run a sequence of menu operations. -/
def run_menu_ops (st : SysState) (ops : List MenuOp) : SysState :=
  ops.foldl apply_menu_op st

/-! ## Host-side saccade controller (`src/saccade.py`) -/

/-- The absolute actuator position commanded by
`SaccadeController.saccade`: `target = zero - relative` (the sign
convention negates relative degrees). -/
def saccade_abs_target (zero relative : ℚ) : ℚ := zero - relative

/-- The relative position reported by
`SaccadeController.get_current_position`: `relative = zero - absolute`. -/
def position_rel (zero absolute : ℚ) : ℚ := zero - absolute

/-- One recorded `profile_data` entry, restricted to the fields
`_analyze_profile` reads (`time`, `pan_rel`, `tilt_rel`, `pan_vel`,
`tilt_vel`; the absolute positions are recorded but never read by the
analysis). -/
structure ProfileSample where
  time : ℚ
  pan_rel : ℚ
  tilt_rel : ℚ
  pan_vel : Option ℚ
  tilt_vel : Option ℚ
deriving DecidableEq

/-- `_smooth_data(data, window)`: moving average; data shorter than the
window is returned unchanged. -/
def smooth_data (data : List ℚ) (window : ℕ) : List ℚ :=
  if data.length < window then data
  else
    (List.range data.length).map (fun i =>
      let start := max 0 (i - window / 2)
      let stop := min data.length (i + window / 2 + 1)
      ((data.drop start).take (stop - start)).sum / ((stop : ℚ) - start))

/-- The device-reported pan velocity column of the profile. -/
def device_pan_vels (profile : List ProfileSample) : List (Option ℚ) :=
  profile.map (·.pan_vel)

/-- The device-reported tilt velocity column of the profile. -/
def device_tilt_vels (profile : List ProfileSample) : List (Option ℚ) :=
  profile.map (·.tilt_vel)

/-- `has_device_velocity`: any pan velocity present (the source checks
only the pan column). -/
def has_device_velocity (profile : List ProfileSample) : Bool :=
  (device_pan_vels profile).any Option.isSome

/-- Finite-difference velocity estimates from a relative-position
column: a leading `None`, then `Δposition / Δtime` per consecutive pair,
`None` where the time delta is not positive. -/
def diff_velocities (profile : List ProfileSample)
    (pos : ProfileSample → ℚ) : List (Option ℚ) :=
  none :: (List.range (profile.length - 1)).map (fun k =>
    let prev := profile.getD k ⟨0, 0, 0, none, none⟩
    let cur := profile.getD (k + 1) ⟨0, 0, 0, none, none⟩
    let dt := cur.time - prev.time
    if 0 < dt then some ((pos cur - pos prev) / dt) else none)

/-- The pan velocity series the analysis works on: device-reported when
available, else estimated from positions. -/
def pan_velocity_series (profile : List ProfileSample) : List (Option ℚ) :=
  if has_device_velocity profile then device_pan_vels profile
  else diff_velocities profile (·.pan_rel)

/-- The tilt velocity series the analysis works on (the same pan-based
device-velocity test selects the branch). -/
def tilt_velocity_series (profile : List ProfileSample) : List (Option ℚ) :=
  if has_device_velocity profile then device_tilt_vels profile
  else diff_velocities profile (·.tilt_rel)

/-- `pan_vels_clean` / `tilt_vels_clean`: the `None`-filtered series. -/
def vels_clean (series : List (Option ℚ)) : List ℚ := series.filterMap id

/-- `max(abs(v) for v in clean)` over a nonempty list, `None` otherwise. -/
def peak_abs_vel (clean : List ℚ) : Option ℚ :=
  match clean.map (|·|) with
  | [] => none
  | a :: rest => some (rest.foldl max a)

/-- `valid_indices`: positions of the non-`None` entries of a velocity
series. -/
def valid_indices (series : List (Option ℚ)) : List ℕ :=
  (List.range series.length).filter (fun j => (series.getD j none).isSome)

/-- The acceleration magnitudes derived from a velocity series: smooth
the cleaned series (window 5), then `|Δsmoothed / Δt|` over the original
sample times of consecutive valid entries, skipping non-positive time
deltas (and indices beyond the valid-index list, a guard the source
carries although the lengths always agree). -/
def accel_list (times : List ℚ) (series : List (Option ℚ)) : List ℚ :=
  let clean := vels_clean series
  let smoothed := smooth_data clean 5
  let vi := valid_indices series
  ((List.range smoothed.length).drop 1).filterMap (fun i =>
    if i < vi.length then
      let dt := times.getD (vi.getD i 0) 0 - times.getD (vi.getD (i - 1) 0) 0
      if 0 < dt then
        some (|(smoothed.getD i 0 - smoothed.getD (i - 1) 0) / dt|)
      else none
    else none)

/-- Insertion into a sorted rational list (for `sorted(...)`). -/
def insertSorted (x : ℚ) : List ℚ → List ℚ
  | [] => [x]
  | y :: ys => if x ≤ y then x :: y :: ys else y :: insertSorted x ys

/-- Python `sorted` on rationals (ascending). -/
def sortedQ (l : List ℚ) : List ℚ := l.foldr insertSorted []

/-- The `(peak, average)` acceleration statistics from an acceleration
list: the 90th-percentile entry of the sorted magnitudes, and the mean
over the middle 80% (by time order) when that slice is nonempty. -/
def accel_stats (accels : List ℚ) : Option ℚ × Option ℚ :=
  if accels.isEmpty then (none, none)
  else
    let accels_sorted := sortedQ accels
    let idx_90 := 9 * accels_sorted.length / 10
    let peak :=
      if idx_90 < accels_sorted.length then accels_sorted.getD idx_90 0
      else accels_sorted.getLastD 0
    let start_idx := accels.length / 10
    let end_idx := 9 * accels.length / 10
    let avg :=
      if start_idx < end_idx then
        some (((accels.drop start_idx).take (end_idx - start_idx)).sum /
          ((end_idx : ℚ) - start_idx))
      else none
    (some peak, avg)

/-- The nullable statistics `_analyze_profile` derives and displays. -/
structure ProfileStats where
  peak_pan_vel : Option ℚ
  peak_tilt_vel : Option ℚ
  peak_pan_accel : Option ℚ
  avg_pan_accel : Option ℚ
  peak_tilt_accel : Option ℚ
  avg_tilt_accel : Option ℚ
  pan_error : Option ℚ
  tilt_error : Option ℚ
deriving DecidableEq

/-- `_analyze_profile(target_x, target_y, ...)`: on an empty profile the
source prints nothing and derives no statistics (all fields `None`
here); otherwise peak velocities come from the cleaned series, and the
acceleration statistics are computed only when the axis has more than 3
clean velocity samples.  The commanded acceleration/velocity arguments
are display-only and not modelled. -/
def analyze_profile (profile : List ProfileSample) (target_x target_y : ℚ) :
    ProfileStats :=
  if profile.isEmpty then ⟨none, none, none, none, none, none, none, none⟩
  else
    let times := profile.map (·.time)
    let panSeries := pan_velocity_series profile
    let tiltSeries := tilt_velocity_series profile
    let pan_vels_clean := vels_clean panSeries
    let tilt_vels_clean := vels_clean tiltSeries
    let peak_pan_vel := peak_abs_vel pan_vels_clean
    let peak_tilt_vel := peak_abs_vel tilt_vels_clean
    let panStats :=
      if 3 < pan_vels_clean.length then accel_stats (accel_list times panSeries)
      else (none, none)
    let tiltStats :=
      if 3 < tilt_vels_clean.length then
        accel_stats (accel_list times tiltSeries)
      else (none, none)
    let last := profile.getLastD ⟨0, 0, 0, none, none⟩
    ⟨peak_pan_vel, peak_tilt_vel, panStats.1, panStats.2, tiltStats.1,
     tiltStats.2, some (last.pan_rel - target_x),
     some (last.tilt_rel - target_y)⟩

/-! ## Clamping lemmas -/

/-- Clamping is the identity inside the static range. -/
theorem clamp_degrees_of_abs_le {d : ℚ} (h : |d| ≤ 45) :
    clamp_degrees d = d := by
  rcases abs_le.mp h with ⟨h1, h2⟩
  unfold clamp_degrees SERVO_RANGE_DEGREES
  rw [min_eq_right h2, max_eq_right h1]

/-- Clamping hits the positive boundary above the range. -/
theorem clamp_degrees_of_gt {d : ℚ} (h : 45 < d) : clamp_degrees d = 45 := by
  unfold clamp_degrees SERVO_RANGE_DEGREES
  rw [min_eq_left h.le, max_eq_right (by norm_num)]

/-- Clamping hits the negative boundary below the range. -/
theorem clamp_degrees_of_lt {d : ℚ} (h : d < -45) :
    clamp_degrees d = -45 := by
  unfold clamp_degrees SERVO_RANGE_DEGREES
  rw [min_eq_right (by linarith), max_eq_left (by linarith)]

/-- `set_axis_angle` depends on the requested degrees only through their
clamped value. -/
theorem set_axis_angle_congr (ok : ℕ → Bool) (e : Eye) (a : Axis)
    {d1 d2 : ℚ} (h : clamp_degrees d1 = clamp_degrees d2) :
    set_axis_angle ok e a d1 = set_axis_angle ok e a d2 := by
  unfold set_axis_angle
  cases SERVO_LOOKUP e a <;> simp [h]

/-- C1.  For every eye/axis pair with a configured servo: a request `d`
with `|d| > 45` is served exactly as the boundary request `+45`/`-45`
matching the sign of `d` (in particular the pulse is computed from the
boundary value, never from `d`); the applied angle returned is always
`max(-45, min(45, d))`; and for `|d| ≤ 45` the applied angle is `d`
itself. -/
theorem C1_static_limit_clamping (ok : ℕ → Bool) (e : Eye) (a : Axis)
    (d : ℚ) (s : Servo) (hs : SERVO_LOOKUP e a = some s) :
    (45 < |d| →
      set_axis_angle ok e a d =
        set_axis_angle ok e a (if 0 < d then 45 else -45)) ∧
    (set_axis_angle ok e a d).2.1 = max (-45) (min 45 d) ∧
    (|d| ≤ 45 → (set_axis_angle ok e a d).2.1 = d) := by
  have happ : (set_axis_angle ok e a d).2.1 = clamp_degrees d := by
    unfold set_axis_angle
    rw [hs]
  refine ⟨fun hgt => ?_, ?_, fun hle => ?_⟩
  · refine set_axis_angle_congr ok e a ?_
    rcases lt_or_le 45 d with hd | hd
    · rw [clamp_degrees_of_gt hd, if_pos (by linarith)]
      rw [clamp_degrees_of_abs_le (by rw [abs_of_nonneg] <;> norm_num)]
    · have hneg : d < -45 := by
        rcases abs_cases d with ⟨he, _⟩ | ⟨he, _⟩ <;> [linarith; linarith]
      rw [clamp_degrees_of_lt hneg, if_neg (by intro h0; linarith)]
      rw [clamp_degrees_of_abs_le (by rw [abs_of_nonpos] <;> norm_num)]
  · rw [happ]; unfold clamp_degrees SERVO_RANGE_DEGREES; rfl
  · rw [happ, clamp_degrees_of_abs_le hle]

/-- Witness for C1: the left-pan servo is configured, and a request of
`50°` is applied as `45°`. -/
theorem C1_witness :
    SERVO_LOOKUP .L .pan = some ⟨.L, .pan, 4, 1490, -1⟩ ∧
    (45 < |(50 : ℚ)| →
      set_axis_angle (fun _ => true) .L .pan 50 =
        set_axis_angle (fun _ => true) .L .pan (if 0 < (50 : ℚ) then 45 else -45)) ∧
    (set_axis_angle (fun _ => true) .L .pan 50).2.1 =
      max (-45) (min 45 (50 : ℚ)) ∧
    (|(50 : ℚ)| ≤ 45 → (set_axis_angle (fun _ => true) .L .pan 50).2.1 = 50) :=
  ⟨rfl, C1_static_limit_clamping (fun _ => true) .L .pan 50 _ rfl⟩

/-! ## C3/C4: the duty-cycle conversion -/

/-- Counterexample to C3 as stated: at `pulse_us = 100`, `frequency =
50` the exact ratio times `0xFFFF` is `327.675`; the source's `int()`
truncation yields duty `327` while the spec's `round` formula yields
`328`. -/
theorem C3_counterexample :
    pulse_us_to_duty_cycle 100 50 = 327 ∧
    spec_duty_formula 100 50 = 328 ∧
    pulse_us_to_duty_cycle 100 50 ≠ spec_duty_formula 100 50 := by
  have h1 : pulse_us_to_duty_cycle 100 50 = 327 := by
    unfold pulse_us_to_duty_cycle pyTrunc
    norm_num
  have h2 : spec_duty_formula 100 50 = 328 := by
    unfold spec_duty_formula
    rw [show ((100 : ℚ) / (1000000 / 50)) * 65535 = 13107 / 40 by norm_num,
      min_eq_right (by norm_num), max_eq_right (by norm_num), round_eq]
    norm_num
  exact ⟨h1, h2, by rw [h1, h2]; decide⟩

/-- C3 (amended).  For every pulse width and positive frequency, the
source's conversion equals the spec formula with `int()` truncation
toward zero in place of `round` (the clamp applied to the truncated
integer). -/
theorem C3_duty_formula_trunc (pulse_us frequency : ℚ)
    (h : 0 < frequency) :
    pulse_us_to_duty_cycle pulse_us frequency =
      spec_duty_formula_trunc pulse_us frequency := by
  have hf : frequency ≠ 0 := ne_of_gt h
  have harg : pulse_us / 1000000 / (1 / frequency) =
      pulse_us / (1000000 / frequency) := by
    field_simp
  unfold pulse_us_to_duty_cycle spec_duty_formula_trunc
  dsimp only
  rw [harg]

/-- Witness for C3 (amended) at `pulse_us = 1490`, `frequency = 50`. -/
theorem C3_witness :
    (0 : ℚ) < 50 ∧
    pulse_us_to_duty_cycle 1490 50 = spec_duty_formula_trunc 1490 50 :=
  ⟨by norm_num, C3_duty_formula_trunc 1490 50 (by norm_num)⟩

/-- C4.  For every pulse width (including those whose upstream degree
clamping was skipped: huge, negative or zero) and every frequency, the
duty cycle lies in `[0, 0xFFFF]`. -/
theorem C4_duty_in_range (pulse_us frequency : ℚ) :
    0 ≤ pulse_us_to_duty_cycle pulse_us frequency ∧
    pulse_us_to_duty_cycle pulse_us frequency ≤ 65535 := by
  unfold pulse_us_to_duty_cycle
  exact ⟨le_max_left _ _, max_le (by norm_num) (min_le_left _ _)⟩

/-! ## C5: zero-offset mapping consistency (`saccade.py`) -/

/-- C5.  With the host controller's sign convention (`absolute = zero -
relative` when commanding, `relative = zero - absolute` when reading),
mapping, unmapping and mapping again reproduces the first mapping
exactly, for every in-range relative angle. -/
theorem C5_map_unmap_map (zero x range : ℚ) (h : |x| ≤ range) :
    saccade_abs_target zero (position_rel zero (saccade_abs_target zero x)) =
      saccade_abs_target zero x := by
  unfold saccade_abs_target position_rel
  ring

/-- Witness for C5 at `zero = 97`, `x = 10`, `range = 45`. -/
theorem C5_witness :
    |(10 : ℚ)| ≤ 45 ∧
    saccade_abs_target 97 (position_rel 97 (saccade_abs_target 97 10)) =
      saccade_abs_target 97 10 :=
  ⟨by norm_num, C5_map_unmap_map 97 10 45 (by norm_num)⟩

/-! ## C2: per-axis update semantics of `move_eye_to_angles` -/

/-- `SERVO_LOOKUP` evaluated on left pan. -/
theorem SERVO_LOOKUP_L_pan :
    SERVO_LOOKUP .L .pan = some ⟨.L, .pan, 4, 1490, -1⟩ := rfl

/-- `SERVO_LOOKUP` evaluated on left tilt. -/
theorem SERVO_LOOKUP_L_tilt :
    SERVO_LOOKUP .L .tilt = some ⟨.L, .tilt, 5, 1460, 1⟩ := rfl

/-- `SERVO_LOOKUP` evaluated on right pan. -/
theorem SERVO_LOOKUP_R_pan :
    SERVO_LOOKUP .R .pan = some ⟨.R, .pan, 6, 1560, -1⟩ := rfl

/-- `SERVO_LOOKUP` evaluated on right tilt. -/
theorem SERVO_LOOKUP_R_tilt :
    SERVO_LOOKUP .R .tilt = some ⟨.R, .tilt, 7, 1460, -1⟩ := rfl

/-- C2.  For every eye and `(pan, tilt)` request: each axis's stored
angle after the move equals the clamped value actually sent when that
axis's servo command succeeded, and is unchanged otherwise — each axis
independently of the other's outcome — and the other eye's stored
angles are untouched. -/
theorem C2_state_update_iff_success (ok : ℕ → Bool) (st : EyeAngles)
    (e : Eye) (p t : ℚ) :
    ((move_eye_to_angles ok st e p t).2.1.get e .pan =
      if (set_axis_angle ok e .pan p).1 then clamp_degrees p
      else st.get e .pan) ∧
    ((move_eye_to_angles ok st e p t).2.1.get e .tilt =
      if (set_axis_angle ok e .tilt t).1 then clamp_degrees t
      else st.get e .tilt) ∧
    (∀ e2 : Eye, e2 ≠ e → ∀ a2 : Axis,
      (move_eye_to_angles ok st e p t).2.1.get e2 a2 = st.get e2 a2) := by
  refine ⟨?_, ?_, ?_⟩
  · cases e <;>
      rcases h4 : ok 4 with _ | _ <;> rcases h5 : ok 5 with _ | _ <;>
      rcases h6 : ok 6 with _ | _ <;> rcases h7 : ok 7 with _ | _ <;>
      simp [move_eye_to_angles, set_axis_angle, SERVO_LOOKUP_L_pan,
        SERVO_LOOKUP_L_tilt, SERVO_LOOKUP_R_pan, SERVO_LOOKUP_R_tilt,
        set_servo_pulse, EyeAngles.get, EyeAngles.set, h4, h5, h6, h7]
  · cases e <;>
      rcases h4 : ok 4 with _ | _ <;> rcases h5 : ok 5 with _ | _ <;>
      rcases h6 : ok 6 with _ | _ <;> rcases h7 : ok 7 with _ | _ <;>
      simp [move_eye_to_angles, set_axis_angle, SERVO_LOOKUP_L_pan,
        SERVO_LOOKUP_L_tilt, SERVO_LOOKUP_R_pan, SERVO_LOOKUP_R_tilt,
        set_servo_pulse, EyeAngles.get, EyeAngles.set, h4, h5, h6, h7]
  · intro e2 hne a2
    cases e <;> cases e2 <;> try exact absurd rfl hne
    all_goals
      cases a2 <;>
        rcases h4 : ok 4 with _ | _ <;> rcases h5 : ok 5 with _ | _ <;>
        rcases h6 : ok 6 with _ | _ <;> rcases h7 : ok 7 with _ | _ <;>
        simp [move_eye_to_angles, set_axis_angle, SERVO_LOOKUP_L_pan,
          SERVO_LOOKUP_L_tilt, SERVO_LOOKUP_R_pan, SERVO_LOOKUP_R_tilt,
          set_servo_pulse, EyeAngles.get, EyeAngles.set, h4, h5, h6, h7]

/-- Witness for C2: moving the left eye with a pan-only servo failure
(channel 4 down, channel 5 up) from a concrete store. -/
theorem C2_witness :
    ((move_eye_to_angles (fun c => c ≠ 4) ⟨1, 2, 3, 4⟩ .L 30 50).2.1.get
        .L .pan =
      if (set_axis_angle (fun c => c ≠ 4) .L .pan 30).1 then clamp_degrees 30
      else (⟨1, 2, 3, 4⟩ : EyeAngles).get .L .pan) ∧
    ((move_eye_to_angles (fun c => c ≠ 4) ⟨1, 2, 3, 4⟩ .L 30 50).2.1.get
        .L .tilt =
      if (set_axis_angle (fun c => c ≠ 4) .L .tilt 50).1 then clamp_degrees 50
      else (⟨1, 2, 3, 4⟩ : EyeAngles).get .L .tilt) ∧
    (∀ e2 : Eye, e2 ≠ .L → ∀ a2 : Axis,
      (move_eye_to_angles (fun c => c ≠ 4) ⟨1, 2, 3, 4⟩ .L 30 50).2.1.get
          e2 a2 =
        (⟨1, 2, 3, 4⟩ : EyeAngles).get e2 a2) :=
  C2_state_update_iff_success (fun c => c ≠ 4) ⟨1, 2, 3, 4⟩ .L 30 50

/-! ## C9: acceleration statistics need more than 3 velocity samples -/

/-- A nonempty cleaned velocity list always yields a peak velocity. -/
theorem peak_abs_vel_isSome {l : List ℚ} (hl : l ≠ []) :
    (peak_abs_vel l).isSome = true := by
  cases l with
  | nil => exact absurd rfl hl
  | cons a t => simp [peak_abs_vel]

/-- C9.  In profile analysis, an axis with at most 3 valid velocity
samples gets no acceleration statistics (both `None`), on either axis;
while any axis with at least one valid velocity sample still gets a peak
velocity. -/
theorem C9_accel_needs_samples (profile : List ProfileSample)
    (tx ty : ℚ) :
    ((vels_clean (pan_velocity_series profile)).length ≤ 3 →
      (analyze_profile profile tx ty).peak_pan_accel = none ∧
      (analyze_profile profile tx ty).avg_pan_accel = none) ∧
    ((vels_clean (tilt_velocity_series profile)).length ≤ 3 →
      (analyze_profile profile tx ty).peak_tilt_accel = none ∧
      (analyze_profile profile tx ty).avg_tilt_accel = none) ∧
    (vels_clean (pan_velocity_series profile) ≠ [] →
      ((analyze_profile profile tx ty).peak_pan_vel).isSome = true) ∧
    (vels_clean (tilt_velocity_series profile) ≠ [] →
      ((analyze_profile profile tx ty).peak_tilt_vel).isSome = true) := by
  by_cases hp : profile = []
  · subst hp
    refine ⟨fun _ => ?_, fun _ => ?_, fun h => ?_, fun h => ?_⟩ <;>
      simp_all [analyze_profile, pan_velocity_series, tilt_velocity_series,
        has_device_velocity, device_pan_vels, device_tilt_vels,
        diff_velocities, vels_clean]
  · have hne : profile.isEmpty = false := by
      simpa [List.isEmpty_iff] using hp
    unfold analyze_profile
    simp only [hne, Bool.false_eq_true, if_false]
    refine ⟨fun h => ?_, fun h => ?_, fun h => ?_, fun h => ?_⟩
    · rw [if_neg (by omega)]
      exact ⟨rfl, rfl⟩
    · rw [if_neg (by omega)]
      exact ⟨rfl, rfl⟩
    · exact peak_abs_vel_isSome h
    · exact peak_abs_vel_isSome h

/-- Witness for C9: a two-sample profile with device velocities has 2
(at most 3) clean samples per axis, so acceleration statistics are
omitted while peak velocities exist. -/
theorem C9_witness :
    (vels_clean (pan_velocity_series
        [⟨0, 0, 0, some 1, some 1⟩, ⟨1, 1, 1, some 2, some 2⟩])).length ≤ 3 ∧
    (vels_clean (pan_velocity_series
        [⟨0, 0, 0, some 1, some 1⟩, ⟨1, 1, 1, some 2, some 2⟩]) ≠ []) ∧
    ((analyze_profile [⟨0, 0, 0, some 1, some 1⟩, ⟨1, 1, 1, some 2, some 2⟩]
        0 0).peak_pan_accel = none ∧
      (analyze_profile [⟨0, 0, 0, some 1, some 1⟩, ⟨1, 1, 1, some 2, some 2⟩]
        0 0).avg_pan_accel = none) ∧
    ((analyze_profile [⟨0, 0, 0, some 1, some 1⟩, ⟨1, 1, 1, some 2, some 2⟩]
        0 0).peak_pan_vel).isSome = true := by
  have h := C9_accel_needs_samples
    [⟨0, 0, 0, some 1, some 1⟩, ⟨1, 1, 1, some 2, some 2⟩] 0 0
  have hlen : (vels_clean (pan_velocity_series
      [⟨0, 0, 0, some 1, some 1⟩, ⟨1, 1, 1, some 2, some 2⟩])).length ≤ 3 := by
    simp [vels_clean, pan_velocity_series, has_device_velocity,
      device_pan_vels]
  have hne : vels_clean (pan_velocity_series
      [⟨0, 0, 0, some 1, some 1⟩, ⟨1, 1, 1, some 2, some 2⟩]) ≠ [] := by
    simp [vels_clean, pan_velocity_series, has_device_velocity,
      device_pan_vels]
  exact ⟨hlen, hne, h.1 hlen, h.2.2.1 hne⟩

/-! ## String lemmas for the command protocol -/

/-- Dropping whitespace skips a fully-whitespace prefix. -/
theorem dropWhile_sp_append {w l : List Char}
    (h : ∀ c ∈ w, isSpaceChar c = true) :
    (w ++ l).dropWhile isSpaceChar = l.dropWhile isSpaceChar := by
  induction w with
  | nil => rfl
  | cons c cs ih =>
    rw [List.cons_append, List.dropWhile_cons,
      if_pos (h c (List.mem_cons_self _ _))]
    exact ih fun x hx => h x (List.mem_cons_of_mem _ hx)

/-- Dropping whitespace is the identity on whitespace-free text. -/
theorem dropWhile_sp_of_no_space {l : List Char}
    (h : ∀ c ∈ l, isSpaceChar c = false) :
    l.dropWhile isSpaceChar = l := by
  cases l with
  | nil => rfl
  | cons c cs =>
    rw [List.dropWhile_cons, if_neg]
    simp [h c (List.mem_cons_self _ _)]

/-- Stripping a whitespace-free token decorated with surrounding
whitespace recovers the token. -/
theorem pyStrip_sandwich {w1 w2 t : List Char}
    (h1 : ∀ c ∈ w1, isSpaceChar c = true)
    (h2 : ∀ c ∈ w2, isSpaceChar c = true)
    (ht : ∀ c ∈ t, isSpaceChar c = false) :
    pyStrip (w1 ++ t ++ w2) = t := by
  unfold pyStrip
  rw [List.append_assoc, dropWhile_sp_append h1]
  cases t with
  | nil =>
    have : (w2.dropWhile isSpaceChar) = ([] : List Char).dropWhile isSpaceChar := by
      simpa using dropWhile_sp_append (l := []) h2
    simp only [List.nil_append, this]
    rfl
  | cons c cs =>
    rw [List.cons_append, List.dropWhile_cons,
      if_neg (by simp [ht c (List.mem_cons_self _ _)])]
    rw [show (c :: (cs ++ w2)) = (c :: cs) ++ w2 from rfl, List.reverse_append,
      dropWhile_sp_append (fun x hx => h2 x (List.mem_reverse.mp hx)),
      dropWhile_sp_of_no_space
        (fun x hx => ht x (List.mem_reverse.mp hx)),
      List.reverse_reverse]

/-- Whitespace characters are fixed by `Char.toUpper`. -/
theorem space_toUpper {c : Char} (h : isSpaceChar c = true) :
    c.toUpper = c := by
  unfold isSpaceChar at h
  simp only [Bool.or_eq_true, decide_eq_true_eq] at h
  rcases h with ((((h | h) | h) | h) | h) | h <;> subst h <;> decide

/-- No character of a hold sentinel is whitespace. -/
theorem hold_token_no_space :
    ∀ c ∈ HOLD_TOKENS, ∀ u ∈ c, isSpaceChar u = false := by decide

/-- Any case variant of a hold sentinel, surrounded by arbitrary
whitespace, parses to the hold sentinel. -/
theorem sentinel_parses_hold {w1 w2 t c : List Char}
    (hc : c ∈ HOLD_TOKENS) (hu : pyUpper t = c)
    (h1 : ∀ ch ∈ w1, isSpaceChar ch = true)
    (h2 : ∀ ch ∈ w2, isSpaceChar ch = true) :
    parse_saccade_arg (w1 ++ t ++ w2) = .hold := by
  have ht : ∀ ch ∈ t, isSpaceChar ch = false := by
    intro ch hch
    have hmem : ch.toUpper ∈ c := by
      rw [← hu]
      exact List.mem_map_of_mem _ hch
    have hup : isSpaceChar ch.toUpper = false := hold_token_no_space c hc _ hmem
    by_contra hcc
    have hsp : isSpaceChar ch = true := by
      cases hv : isSpaceChar ch with
      | true => rfl
      | false => exact absurd hv hcc
    rw [space_toUpper hsp, hsp] at hup
    simp at hup
  unfold parse_saccade_arg
  rw [pyStrip_sandwich h1 h2 ht, hu, if_pos (List.elem_iff.mpr hc)]

/-! ## C6: parsing `SAC 10 X 5 NC` and hold resolution -/

/-- The numeric value produced by `parseFloat` on the token `10`. -/
theorem applyExp_ten : applyExp (1 * ((natOfDigits [1, 0] : ℕ) : ℚ)) 0 = 10 := by
  simp [applyExp, natOfDigits]

/-- The numeric value produced by `parseFloat` on the token `5`. -/
theorem applyExp_five : applyExp (1 * ((natOfDigits [5] : ℕ) : ℚ)) 0 = 5 := by
  simp [applyExp, natOfDigits]

/-- The resolved target tuple of `perform_saccade 10 hold 5 hold`: holds
are read out of the current angle store. -/
theorem perform_saccade_resolved (ok : ℕ → Bool) (ang : EyeAngles) :
    (perform_saccade ok ang (some 10) none (some 5) none).2.1 =
      (10, ang.get .L .tilt, 5, ang.get .R .tilt) := by
  simp [perform_saccade]

/-- C6.  (a) `"SAC 10 X 5 NC"` splits into the `SAC` keyword and four
tokens parsing to `10`, hold, `5`, hold; (b) the serial handler executes
exactly the saccade `(10, hold, 5, hold)` against the current state; (c)
the resolved targets substitute the current stored tilt angles for the
two hold arguments (resolved before the move); (d) every case variant of
`X`/`H`/`HOLD`/`SKIP`/`KEEP`/`NC` with surrounding whitespace parses to
the hold sentinel. -/
theorem C6_sac_hold_parsing (ok : ℕ → Bool) (st : SysState) :
    pySplit (pyStrip ("SAC 10 X 5 NC".toList)) =
      ["SAC".toList, "10".toList, "X".toList, "5".toList, "NC".toList] ∧
    ["10".toList, "X".toList, "5".toList, "NC".toList].map parse_saccade_arg =
      [.num 10, .hold, .num 5, .hold] ∧
    handle_serial_command ok st ("SAC 10 X 5 NC".toList) =
      ({ st with angles :=
          (perform_saccade ok st.angles (some 10) none (some 5) none).2.2.1 },
       [if (perform_saccade ok st.angles (some 10) none (some 5) none).1 then
          Out.okSac 10 (st.angles.get .L .tilt) 5 (st.angles.get .R .tilt)
        else Out.errSacMoveFailed],
       (perform_saccade ok st.angles (some 10) none (some 5) none).2.2.2) ∧
    (perform_saccade ok st.angles (some 10) none (some 5) none).2.1 =
      (10, st.angles.get .L .tilt, 5, st.angles.get .R .tilt) ∧
    (∀ w1 w2 t c : List Char, c ∈ HOLD_TOKENS → pyUpper t = c →
      (∀ ch ∈ w1, isSpaceChar ch = true) →
      (∀ ch ∈ w2, isSpaceChar ch = true) →
      parse_saccade_arg (w1 ++ t ++ w2) = .hold) := by
  refine ⟨rfl, ?_, ?_, perform_saccade_resolved ok st.angles,
    fun w1 w2 t c hc hu h1 h2 => sentinel_parses_hold hc hu h1 h2⟩
  · simp only [List.map_cons, List.map_nil]
    rw [show parse_saccade_arg ("10".toList) =
        .num (applyExp (1 * ((natOfDigits [1, 0] : ℕ) : ℚ)) 0) from rfl,
      show parse_saccade_arg ("5".toList) =
        .num (applyExp (1 * ((natOfDigits [5] : ℕ) : ℚ)) 0) from rfl,
      applyExp_ten, applyExp_five]
    rfl
  · rw [show handle_serial_command ok st ("SAC 10 X 5 NC".toList) =
      ({ st with angles :=
          (perform_saccade ok st.angles
            (some (applyExp (1 * ((natOfDigits [1, 0] : ℕ) : ℚ)) 0)) none
            (some (applyExp (1 * ((natOfDigits [5] : ℕ) : ℚ)) 0)) none).2.2.1 },
       [if (perform_saccade ok st.angles
            (some (applyExp (1 * ((natOfDigits [1, 0] : ℕ) : ℚ)) 0)) none
            (some (applyExp (1 * ((natOfDigits [5] : ℕ) : ℚ)) 0)) none).1 then
          Out.okSac
            (perform_saccade ok st.angles
              (some (applyExp (1 * ((natOfDigits [1, 0] : ℕ) : ℚ)) 0)) none
              (some (applyExp (1 * ((natOfDigits [5] : ℕ) : ℚ)) 0)) none).2.1.1
            (perform_saccade ok st.angles
              (some (applyExp (1 * ((natOfDigits [1, 0] : ℕ) : ℚ)) 0)) none
              (some (applyExp (1 * ((natOfDigits [5] : ℕ) : ℚ)) 0)) none).2.1.2.1
            (perform_saccade ok st.angles
              (some (applyExp (1 * ((natOfDigits [1, 0] : ℕ) : ℚ)) 0)) none
              (some (applyExp (1 * ((natOfDigits [5] : ℕ) : ℚ)) 0)) none).2.1.2.2.1
            (perform_saccade ok st.angles
              (some (applyExp (1 * ((natOfDigits [1, 0] : ℕ) : ℚ)) 0)) none
              (some (applyExp (1 * ((natOfDigits [5] : ℕ) : ℚ)) 0)) none).2.1.2.2.2
        else Out.errSacMoveFailed],
       (perform_saccade ok st.angles
          (some (applyExp (1 * ((natOfDigits [1, 0] : ℕ) : ℚ)) 0)) none
          (some (applyExp (1 * ((natOfDigits [5] : ℕ) : ℚ)) 0)) none).2.2.2)
      from rfl]
    rw [applyExp_ten, applyExp_five, perform_saccade_resolved ok st.angles]

/-- Witness for C6: everything at the all-up oracle and the initial
state, with the sentinel clause instanced at `" hOlD"`. -/
theorem C6_witness :
    ("HOLD".toList ∈ HOLD_TOKENS) ∧
    pyUpper ("hOlD".toList) = "HOLD".toList ∧
    (∀ ch ∈ [' '], isSpaceChar ch = true) ∧
    (∀ ch ∈ ([] : List Char), isSpaceChar ch = true) ∧
    parse_saccade_arg ([' '] ++ "hOlD".toList ++ []) = .hold ∧
    (perform_saccade (fun _ => true) initState.angles (some 10) none
        (some 5) none).2.1 =
      (10, initState.angles.get .L .tilt, 5, initState.angles.get .R .tilt) := by
  have h := C6_sac_hold_parsing (fun _ => true) initState
  exact ⟨by decide, by decide, by decide, by decide,
    h.2.2.2.2 [' '] [] ("hOlD".toList) ("HOLD".toList) (by decide) (by decide)
      (by decide) (by decide),
    h.2.2.2.1⟩

/-! ## C7: SAC arity and invalid-number diagnostics -/

/-- C7.  A `SAC`/`SACCADE` command with other than 4 arguments is
rejected with the wrong-arity diagnostic, issuing no servo write and
leaving the state unchanged; one with 4 arguments of which some token
parses as neither float nor sentinel is rejected with the distinct
invalid-number diagnostic, likewise without effect; and the two
diagnostics differ. -/
theorem C7_sac_error_handling (ok : ℕ → Bool) (st : SysState)
    (s key : List Char) (args : List (List Char))
    (hsplit : pySplit (pyStrip s) = key :: args)
    (hkey : pyUpper key = "SAC".toList ∨ pyUpper key = "SACCADE".toList) :
    (args.length ≠ 4 →
      handle_serial_command ok st s = (st, [.errSacArity], [])) ∧
    (args.length = 4 → (∃ tok ∈ args, parse_saccade_arg tok = .err) →
      handle_serial_command ok st s = (st, [.errSacInvalid], [])) ∧
    Out.errSacArity ≠ Out.errSacInvalid := by
  have hne : (pyStrip s).isEmpty = false := by
    cases hps : pyStrip s with
    | nil =>
      rw [hps] at hsplit
      exact absurd hsplit (by simp [pySplit, splitAux])
    | cons a l => rfl
  have h9 : (nine_point_vector (pyUpper key)).isSome = false := by
    rcases hkey with hk | hk <;> rw [hk] <;> rfl
  have hred : handle_serial_command ok st s =
      (if args.length ≠ 4 then (st, [.errSacArity], [])
       else
        if (args.map parse_saccade_arg).any SacArg.isErr then
          (st, [.errSacInvalid], [])
        else
          match args.map parse_saccade_arg with
          | [a1, a2, a3, a4] =>
            let r := perform_saccade ok st.angles a1.toOpt a2.toOpt
              a3.toOpt a4.toOpt
            ({ st with angles := r.2.2.1 },
             [if r.1 then
                .okSac r.2.1.1 r.2.1.2.1 r.2.1.2.2.1 r.2.1.2.2.2
              else .errSacMoveFailed],
             r.2.2.2)
          | _ => (st, [.errSacInvalid], [])) := by
    unfold handle_serial_command
    simp only [hsplit, hne, Bool.false_eq_true, if_false, List.headD_cons,
      List.tail_cons]
    rw [if_neg (fun hcon => by
      rw [h9] at hcon
      exact Bool.false_ne_true hcon.2), if_pos hkey]
  refine ⟨fun hlen => ?_, fun hlen hbad => ?_, by simp⟩
  · rw [hred, if_pos hlen]
  · obtain ⟨tok, htok, herr⟩ := hbad
    have hany : (args.map parse_saccade_arg).any SacArg.isErr = true :=
      List.any_eq_true.mpr
        ⟨parse_saccade_arg tok, List.mem_map_of_mem _ htok,
          by rw [herr]; rfl⟩
    rw [hred, if_neg (fun hn => hn hlen), if_pos hany]

/-- Witness for C7: `"SAC 1 2 3"` (arity 3) is rejected with the arity
diagnostic and `"SAC 1 2 3 Q"` with the invalid-number diagnostic, both
without state change or servo writes. -/
theorem C7_witness :
    (pySplit (pyStrip ("SAC 1 2 3".toList)) =
      "SAC".toList :: ["1".toList, "2".toList, "3".toList]) ∧
    (pyUpper ("SAC".toList) = "SAC".toList ∨
      pyUpper ("SAC".toList) = "SACCADE".toList) ∧
    (["1".toList, "2".toList, "3".toList].length ≠ 4) ∧
    handle_serial_command (fun _ => true) initState ("SAC 1 2 3".toList) =
      (initState, [.errSacArity], []) ∧
    (pySplit (pyStrip ("SAC 1 2 3 Q".toList)) =
      "SAC".toList ::
        ["1".toList, "2".toList, "3".toList, "Q".toList]) ∧
    (∃ tok ∈ ["1".toList, "2".toList, "3".toList, "Q".toList],
      parse_saccade_arg tok = .err) ∧
    handle_serial_command (fun _ => true) initState ("SAC 1 2 3 Q".toList) =
      (initState, [.errSacInvalid], []) := by
  have h3 := C7_sac_error_handling (fun _ => true) initState
    ("SAC 1 2 3".toList) ("SAC".toList)
    ["1".toList, "2".toList, "3".toList] rfl (Or.inl rfl)
  have h4 := C7_sac_error_handling (fun _ => true) initState
    ("SAC 1 2 3 Q".toList) ("SAC".toList)
    ["1".toList, "2".toList, "3".toList, "Q".toList] rfl (Or.inl rfl)
  refine ⟨rfl, Or.inl rfl, by decide, h3.1 (by decide), rfl,
    ⟨"Q".toList, by decide, rfl⟩, h4.2.1 rfl ⟨"Q".toList, by decide, rfl⟩⟩

/-! ## C8: serial line buffer cap and recovery -/

/-- Dropping a whitespace prefix never lengthens a line. -/
theorem length_dropWhile_sp_le (l : List Char) :
    (l.dropWhile isSpaceChar).length ≤ l.length := by
  induction l with
  | nil => simp
  | cons c cs ih =>
    rw [List.dropWhile_cons]
    by_cases h : isSpaceChar c
    · rw [if_pos h]
      simp only [List.length_cons]
      omega
    · rw [if_neg h]

/-- Stripping never lengthens a line. -/
theorem pyStrip_length_le (l : List Char) : (pyStrip l).length ≤ l.length := by
  unfold pyStrip
  rw [List.length_reverse]
  refine le_trans (length_dropWhile_sp_le _) ?_
  rw [List.length_reverse]
  exact length_dropWhile_sp_le _

/-- Processing a concatenation processes the pieces in order. -/
theorem serial_run_append (ok : ℕ → Bool) (xs ys : List Char) :
    ∀ r, serial_run ok r (xs ++ ys) =
      serial_run ok (serial_run ok r xs) ys := by
  induction xs with
  | nil => intro r; rfl
  | cons c cs ih =>
    intro r
    show serial_run ok (serial_step ok r c) (cs ++ ys) =
      serial_run ok (serial_run ok (serial_step ok r c) cs) ys
    exact ih _

/-- Feeding non-terminator characters that keep the buffer within the
64-character cap only appends them to the buffer. -/
theorem serial_run_accumulate (ok : ℕ → Bool) :
    ∀ (cs : List Char) (r : SerialRun),
      (∀ c ∈ cs, ¬(c = '\n' ∨ c = '\r')) →
      r.buffer.length + cs.length ≤ 64 →
      serial_run ok r cs = { r with buffer := r.buffer ++ cs } := by
  intro cs
  induction cs with
  | nil => intro r _ _; simp [serial_run]
  | cons c cs ih =>
    intro r h hb
    simp only [List.length_cons] at hb
    have hterm := h c (List.mem_cons_self _ _)
    have hlen : ¬(64 < r.buffer.length + 1) := by omega
    have hstep : serial_step ok r c = { r with buffer := r.buffer ++ [c] } := by
      simp [serial_step, hterm, List.length_append, hlen]
    rw [show serial_run ok r (c :: cs) =
        serial_run ok (serial_step ok r c) cs from rfl, hstep,
      ih _ (fun x hx => h x (List.mem_cons_of_mem _ hx))
        (by simp only [List.length_append, List.length_cons, List.length_nil]
            omega)]
    simp [List.append_assoc]

/-- Every command ever handed to the dispatcher is at most 64
characters long (the buffer is capped and stripping only shrinks). -/
theorem serial_run_dispatch_bound (ok : ℕ → Bool) :
    ∀ (cs : List Char) (r : SerialRun), r.buffer.length ≤ 64 →
      (∀ cmd ∈ r.dispatched, cmd.length ≤ 64) →
      ∀ cmd ∈ (serial_run ok r cs).dispatched, cmd.length ≤ 64 := by
  intro cs
  induction cs with
  | nil => intro r _ hd cmd hc; exact hd cmd hc
  | cons c cs ih =>
    intro r hb hd cmd hc
    rw [show serial_run ok r (c :: cs) =
        serial_run ok (serial_step ok r c) cs from rfl] at hc
    refine ih _ ?_ ?_ cmd hc
    · by_cases hterm : c = '\n' ∨ c = '\r'
      · by_cases he : (pyStrip r.buffer).isEmpty <;>
          simp [serial_step, hterm, he]
      · by_cases hlong : 64 < r.buffer.length + 1 <;>
          simp [serial_step, hterm, List.length_append, hlong] <;>
          omega
    · intro cmd2 hc2
      by_cases hterm : c = '\n' ∨ c = '\r'
      · by_cases he : (pyStrip r.buffer).isEmpty
        · simp [serial_step, hterm, he] at hc2
          exact hd cmd2 hc2
        · simp [serial_step, hterm, he] at hc2
          rcases hc2 with hc2 | hc2
          · exact hd cmd2 hc2
          · subst hc2
            exact le_trans (pyStrip_length_le _) hb
      · by_cases hlong : 64 < r.buffer.length + 1 <;>
          simp [serial_step, hterm, List.length_append, hlong] at hc2 <;>
          exact hd cmd2 hc2

/-- C8.  Starting a fresh serial session: any 65 non-terminator
characters reset the buffer and emit exactly the line-too-long
diagnostic, dispatching nothing and touching neither state nor servos;
a following well-formed line (at most 64 non-terminator characters with
non-blank content, then newline) is dispatched normally; and no command
of more than 64 characters is ever handed to the dispatcher. -/
theorem C8_line_too_long (ok : ℕ → Bool) (st : SysState)
    (junk L : List Char) (hj65 : junk.length = 65)
    (hjn : ∀ c ∈ junk, ¬(c = '\n' ∨ c = '\r'))
    (hL64 : L.length ≤ 64) (hLn : ∀ c ∈ L, ¬(c = '\n' ∨ c = '\r'))
    (hLs : pyStrip L ≠ []) :
    serial_run ok (serial_start st) junk =
      ⟨st, [], [.errLineTooLong], [], []⟩ ∧
    (serial_run ok (serial_run ok (serial_start st) junk)
        (L ++ ['\n'])).dispatched = [pyStrip L] ∧
    (∀ (cs : List Char) (cmd : List Char),
      cmd ∈ (serial_run ok (serial_start st) cs).dispatched →
      cmd.length ≤ 64) := by
  have h1 : serial_run ok (serial_start st) junk =
      ⟨st, [], [.errLineTooLong], [], []⟩ := by
    obtain ⟨c, hc⟩ : ∃ c, junk.drop 64 = [c] := by
      have hd : (junk.drop 64).length = 1 := by
        rw [List.length_drop, hj65]
      cases hdrop : junk.drop 64 with
      | nil => rw [hdrop] at hd; exact absurd hd (by simp)
      | cons c t =>
        cases t with
        | nil => exact ⟨c, rfl⟩
        | cons d u => rw [hdrop] at hd; simp at hd
    have hcj : c ∈ junk := List.drop_subset 64 junk (hc ▸ List.mem_cons_self c [])
    have htake : serial_run ok (serial_start st) (junk.take 64) =
        ⟨st, junk.take 64, [], [], []⟩ := by
      rw [serial_run_accumulate ok (junk.take 64) (serial_start st)
        (fun x hx => hjn x (List.take_subset 64 junk hx))
        (by simp [serial_start, List.length_take, hj65])]
      rfl
    have hlast : serial_step ok (⟨st, junk.take 64, [], [], []⟩ : SerialRun) c =
        ⟨st, [], [.errLineTooLong], [], []⟩ := by
      have ht64 : (junk.take 64).length = 64 := by
        rw [List.length_take]
        omega
      simp [serial_step, hjn c hcj, List.length_append, ht64]
    calc serial_run ok (serial_start st) junk
        = serial_run ok (serial_start st) (junk.take 64 ++ junk.drop 64) := by
          rw [List.take_append_drop]
      _ = serial_run ok (serial_run ok (serial_start st) (junk.take 64))
            (junk.drop 64) := serial_run_append ok _ _ _
      _ = ⟨st, [], [.errLineTooLong], [], []⟩ := by
          rw [htake, hc]
          exact hlast
  refine ⟨h1, ?_, fun cs cmd hmem =>
    serial_run_dispatch_bound ok cs (serial_start st) (by simp [serial_start])
      (by simp [serial_start]) cmd hmem⟩
  rw [h1, serial_run_append,
    serial_run_accumulate ok L ⟨st, [], [.errLineTooLong], [], []⟩ hLn
      (by simpa using hL64)]
  have hse : (pyStrip L).isEmpty = false := by
    cases hps : pyStrip L with
    | nil => exact absurd hps hLs
    | cons a l => rfl
  simp [serial_run, serial_step, hse]

/-- Witness for C8: 65 copies of `a`, then the line `C`. -/
theorem C8_witness :
    (List.replicate 65 'a').length = 65 ∧
    (∀ c ∈ List.replicate 65 'a', ¬(c = '\n' ∨ c = '\r')) ∧
    ("C".toList : List Char).length ≤ 64 ∧
    (∀ c ∈ ("C".toList : List Char), ¬(c = '\n' ∨ c = '\r')) ∧
    pyStrip ("C".toList) ≠ [] ∧
    serial_run (fun _ => true) (serial_start initState)
        (List.replicate 65 'a') =
      ⟨initState, [], [.errLineTooLong], [], []⟩ ∧
    (serial_run (fun _ => true)
        (serial_run (fun _ => true) (serial_start initState)
          (List.replicate 65 'a'))
        ("C".toList ++ ['\n'])).dispatched = [pyStrip ("C".toList)] := by
  have h := C8_line_too_long (fun _ => true) initState
    (List.replicate 65 'a') ("C".toList) (by decide) (by decide) (by decide)
    (by decide) (by decide)
  exact ⟨by decide, by decide, by decide, by decide, by decide, h.1, h.2.1⟩

/-! ## C10: menu cursor invariant -/

/-- The cursor well-formedness invariant: the active section index is in
range, the cursor list covers every section, and a section's cursor is
`None` exactly when the section has no options, otherwise indexing into
its option list. -/
def MenuInv (st : SysState) : Prop :=
  st.current_menu_index < MENU.length ∧
  st.current_option_indices.length = MENU.length ∧
  ∀ i, i < MENU.length →
    ((st.current_option_indices.getD i none = none ↔
      (MENU.getD i ⟨[], [], none⟩).options = []) ∧
     ∀ j, st.current_option_indices.getD i none = some j →
       j < (MENU.getD i ⟨[], [], none⟩).options.length)

/-- The concrete shape the cursor state always has under the fixed
`MENU`: some in-range cursor for 9-pt, none for Zero, some in-range
cursor for Settings. -/
def MenuShape (st : SysState) : Prop :=
  st.current_menu_index < 3 ∧
  ∃ c0 c2 : ℕ,
    st.current_option_indices = [some c0, none, some c2] ∧ c0 < 9 ∧ c2 < 2

/-- The initial state has the shape (default cursors `C` and `Eye`). -/
theorem menu_shape_init : MenuShape initState :=
  ⟨by decide, 4, 0, rfl, by decide, by decide⟩

/-- `cycle_menu` preserves the shape. -/
theorem menu_shape_cycle_menu (st : SysState) (h : MenuShape st) :
    MenuShape (cycle_menu st) := by
  obtain ⟨hm, c0, c2, hl, h0, h2⟩ := h
  have hi : (st.current_menu_index + 1) % 3 < 3 :=
    Nat.mod_lt _ (by norm_num)
  have hi3 : (st.current_menu_index + 1) % 3 = 0 ∨
      (st.current_menu_index + 1) % 3 = 1 ∨
      (st.current_menu_index + 1) % 3 = 2 := by omega
  rcases hi3 with hv | hv | hv <;>
    · refine ⟨?_, c0, c2, ?_, h0, h2⟩ <;>
        simp [cycle_menu, hv, hl, MENU]

/-- `cycle_option` preserves the shape. -/
theorem menu_shape_cycle_option (st : SysState) (h : MenuShape st) :
    MenuShape (cycle_option st) := by
  obtain ⟨hm, c0, c2, hl, h0, h2⟩ := h
  have hi3 : st.current_menu_index = 0 ∨ st.current_menu_index = 1 ∨
      st.current_menu_index = 2 := by omega
  rcases hi3 with hv | hv | hv
  · exact ⟨by simp [cycle_option, hv, hl, MENU],
      (c0 + 1) % 9, c2, by simp [cycle_option, hv, hl, MENU, List.set],
      Nat.mod_lt _ (by norm_num), h2⟩
  · exact ⟨by simpa [cycle_option, hv, hl, MENU] using hm, c0, c2,
      by simp [cycle_option, hv, hl, MENU], h0, h2⟩
  · exact ⟨by simp [cycle_option, hv, hl, MENU], c0,
      (c2 + 1) % 2, by simp [cycle_option, hv, hl, MENU, List.set], h0,
      Nat.mod_lt _ (by norm_num)⟩

/-- `zero_servos` never touches the menu index. -/
theorem zero_servos_menu_index (ok : ℕ → Bool) (st : SysState) :
    (zero_servos ok st).2.1.current_menu_index = st.current_menu_index := by
  unfold zero_servos
  dsimp only
  split <;> rfl

/-- `zero_servos` never touches the option cursors. -/
theorem zero_servos_option_indices (ok : ℕ → Bool) (st : SysState) :
    (zero_servos ok st).2.1.current_option_indices =
      st.current_option_indices := by
  unfold zero_servos
  dsimp only
  split <;> rfl

/-- `apply_point_selection` never touches the menu index. -/
theorem apply_point_menu_index (ok : ℕ → Bool) (st : SysState)
    (k : List Char) :
    (apply_point_selection ok st k).2.1.current_menu_index =
      st.current_menu_index := by
  unfold apply_point_selection
  cases nine_point_vector k <;> rfl

/-- `apply_point_selection` never touches the option cursors. -/
theorem apply_point_option_indices (ok : ℕ → Bool) (st : SysState)
    (k : List Char) :
    (apply_point_selection ok st k).2.1.current_option_indices =
      st.current_option_indices := by
  unfold apply_point_selection
  cases nine_point_vector k <;> rfl

/-- `handle_selection` never touches the menu index. -/
theorem handle_selection_menu_index (ok : ℕ → Bool) (st : SysState) :
    (handle_selection ok st).current_menu_index = st.current_menu_index := by
  unfold handle_selection
  repeat' split
  all_goals
    simp [zero_servos_menu_index, apply_point_menu_index,
      cycle_eye_selection, cycle_point_distance,
      apply_ite SysState.current_menu_index]

/-- `handle_selection` never touches the option cursors. -/
theorem handle_selection_option_indices (ok : ℕ → Bool) (st : SysState) :
    (handle_selection ok st).current_option_indices =
      st.current_option_indices := by
  unfold handle_selection
  repeat' split
  all_goals
    simp [zero_servos_option_indices, apply_point_option_indices,
      cycle_eye_selection, cycle_point_distance,
      apply_ite SysState.current_option_indices]

/-- Every menu operation preserves the shape. -/
theorem menu_shape_step (st : SysState) (op : MenuOp) (h : MenuShape st) :
    MenuShape (apply_menu_op st op) := by
  cases op with
  | cycleMenu => exact menu_shape_cycle_menu st h
  | cycleOption => exact menu_shape_cycle_option st h
  | select ok =>
    obtain ⟨hm, c0, c2, hl, h0, h2⟩ := h
    refine ⟨?_, c0, c2, ?_, h0, h2⟩
    · rw [show (apply_menu_op st (.select ok)) = handle_selection ok st
        from rfl, handle_selection_menu_index ok st]
      exact hm
    · rw [show (apply_menu_op st (.select ok)) = handle_selection ok st
        from rfl, handle_selection_option_indices ok st]
      exact hl

/-- Runs of menu operations preserve the shape. -/
theorem menu_shape_run (ops : List MenuOp) :
    ∀ st, MenuShape st → MenuShape (run_menu_ops st ops) := by
  induction ops with
  | nil => intro st h; exact h
  | cons op ops ih =>
    intro st h
    exact ih _ (menu_shape_step st op h)

/-- The shape implies the claim's invariant. -/
theorem menu_shape_implies_inv (st : SysState) (h : MenuShape st) :
    MenuInv st := by
  obtain ⟨hm, c0, c2, hl, h0, h2⟩ := h
  refine ⟨hm, by rw [hl]; rfl, ?_⟩
  intro i hi
  have hi3 : i = 0 ∨ i = 1 ∨ i = 2 := by
    rw [show MENU.length = 3 from rfl] at hi
    omega
  rcases hi3 with hv | hv | hv <;> subst hv <;>
    rw [hl] <;>
    exact ⟨by simp [MENU], fun j hj => by
      simp only [List.getD] at hj <;> simp_all [MENU]⟩

/-- C10.  From the initial state, every sequence of `cycle_menu`,
`cycle_option` and `handle_selection` operations keeps the active menu
index in range, and keeps each section's option cursor `None` exactly
for the optionless section and otherwise strictly below that section's
option count. -/
theorem C10_menu_cursor_invariant (ops : List MenuOp) :
    MenuInv (run_menu_ops initState ops) :=
  menu_shape_implies_inv _ (menu_shape_run ops initState menu_shape_init)

/-- Witness for C10 at a concrete operation sequence. -/
theorem C10_witness :
    MenuInv (run_menu_ops initState
      [.cycleMenu, .select (fun _ => true), .cycleOption]) :=
  C10_menu_cursor_invariant [.cycleMenu, .select (fun _ => true), .cycleOption]

end RoboEye
